import Mathlib

/-!
Shallow embedding of the FSM engine in `src/src/fsm.cpp` / `src/include/fsm/fsm.hpp`
(namespace `fsm`, class `Fsm`).

Modelling conventions:
* The two C++ enums become Lean inductives with the same constructor names.
* The nested `unordered_map<SystemState, unordered_map<SystemEvent, SystemState>>`
  transition table becomes a nested association list, populated in the order of
  `Fsm::setupTransitionTable`; lookups mirror the two `find` steps of the C++ code.
* The mutable object state becomes the `Engine` structure.  `std::function`
  callbacks are modelled by their observable behaviour during one invocation:
  an event-gating callback is a `CbResult` (returns `true`/`false`, or throws),
  the state-change callback is a `CbRun` (returns normally or throws).
* Each operation returns, besides its C++ return value and the updated engine,
  a `List Effect` trace of the observable side effects it performed, in order:
  messages handed to the log sink (`logMessage`; the wall-clock timestamp prefix
  added by `Fsm::logMessage` is ambient and omitted), invocations of the
  event-gating callback and of the state-change callback, and `cv_.notify_all()`
  wake-ups.  A C++ callback that throws is modelled by the corresponding
  `thrown` effect followed by the catch-handler's log line; the Lean functions
  are total, which models that no exception escapes the operation.
-/

namespace Fsm

/-- States of `enum class SystemState` in `fsm.hpp`. -/
inductive SystemState
  | IDLE
  | MOVEIT_STARTING
  | PLANNING
  | EXECUTING
  | OBSTACLE_DETECTED
  | ERROR
deriving DecidableEq, Repr, Fintype

/-- Events of `enum class SystemEvent` in `fsm.hpp`. -/
inductive SystemEvent
  | START_MOVEIT
  | MOVEIT_READY
  | MOVEIT_FAILED
  | START_PLANNING
  | PLANNING_SUCCESS
  | PLANNING_FAILED
  | EXECUTION_COMPLETE
  | OBSTACLE_APPEARED
  | OBSTACLE_CLEARED
  | STOP_REQUEST
  | ERROR_OCCURRED
  | RESET_REQUEST
deriving DecidableEq, Repr, Fintype

/-- Mirrors `Fsm::stateToString` (the `default: "UNKNOWN"` branch is unreachable
for a value of the closed enum and has no Lean counterpart). -/
def stateToString : SystemState → String
  | .IDLE => "IDLE"
  | .MOVEIT_STARTING => "MOVEIT_STARTING"
  | .PLANNING => "PLANNING"
  | .EXECUTING => "EXECUTING"
  | .OBSTACLE_DETECTED => "OBSTACLE_DETECTED"
  | .ERROR => "ERROR"

/-- Mirrors `Fsm::eventToString` (the `default: "UNKNOWN_EVENT"` branch is
unreachable for a value of the closed enum). -/
def eventToString : SystemEvent → String
  | .START_MOVEIT => "START_MOVEIT"
  | .MOVEIT_READY => "MOVEIT_READY"
  | .MOVEIT_FAILED => "MOVEIT_FAILED"
  | .START_PLANNING => "START_PLANNING"
  | .PLANNING_SUCCESS => "PLANNING_SUCCESS"
  | .PLANNING_FAILED => "PLANNING_FAILED"
  | .EXECUTION_COMPLETE => "EXECUTION_COMPLETE"
  | .OBSTACLE_APPEARED => "OBSTACLE_APPEARED"
  | .OBSTACLE_CLEARED => "OBSTACLE_CLEARED"
  | .STOP_REQUEST => "STOP_REQUEST"
  | .ERROR_OCCURRED => "ERROR_OCCURRED"
  | .RESET_REQUEST => "RESET_REQUEST"

/-- The transition table built by `Fsm::setupTransitionTable`, entry for entry
and in source order: outer key the state, inner association list from event to
target state. -/
def transition_table : List (SystemState × List (SystemEvent × SystemState)) :=
  [ (.IDLE,
      [ (.START_MOVEIT, .MOVEIT_STARTING),
        (.RESET_REQUEST, .IDLE),
        (.ERROR_OCCURRED, .ERROR) ]),
    (.MOVEIT_STARTING,
      [ (.MOVEIT_READY, .PLANNING),
        (.MOVEIT_FAILED, .ERROR),
        (.ERROR_OCCURRED, .ERROR),
        (.STOP_REQUEST, .IDLE) ]),
    (.PLANNING,
      [ (.PLANNING_SUCCESS, .EXECUTING),
        (.PLANNING_FAILED, .ERROR),
        (.ERROR_OCCURRED, .ERROR),
        (.OBSTACLE_APPEARED, .OBSTACLE_DETECTED),
        (.STOP_REQUEST, .IDLE) ]),
    (.EXECUTING,
      [ (.EXECUTION_COMPLETE, .IDLE),
        (.OBSTACLE_APPEARED, .OBSTACLE_DETECTED),
        (.STOP_REQUEST, .IDLE),
        (.ERROR_OCCURRED, .ERROR) ]),
    (.OBSTACLE_DETECTED,
      [ (.START_PLANNING, .PLANNING),
        (.STOP_REQUEST, .IDLE),
        (.ERROR_OCCURRED, .ERROR) ]),
    (.ERROR,
      [ (.RESET_REQUEST, .IDLE),
        (.STOP_REQUEST, .IDLE) ]) ]

/-- The outer map lookup `transition_table_.find(state)`. -/
def lookupState (s : SystemState) : Option (List (SystemEvent × SystemState)) :=
  (transition_table.find? (fun p => p.1 == s)).map Prod.snd

/-- Outer lookup followed by the inner lookup `state_it->second.find(event)`:
`some target` exactly when the (state, event) pair is a table entry. -/
def lookupTable (s : SystemState) (e : SystemEvent) : Option SystemState :=
  match lookupState s with
  | none => none
  | some events => (events.find? (fun p => p.1 == e)).map Prod.snd

/-- Observable behaviour of one invocation of an event-gating callback
(`Fsm::EventCallback`): it returns a boolean or throws `std::exception` with
message `m`. -/
inductive CbResult
  | ret (b : Bool)
  | thrown (m : String)
deriving DecidableEq, Repr

/-- Observable behaviour of one invocation of the state-change callback
(`Fsm::StateChangeCallback`): it returns normally or throws. -/
inductive CbRun
  | ok
  | thrown (m : String)
deriving DecidableEq, Repr

/-- One observable side effect of an engine operation. -/
inductive Effect
  | log (msg : String)
  | eventCb (event : SystemEvent) (r : CbResult)
  | stateCb (old_state new_state : SystemState) (r : CbRun)
  | notifyAll
deriving DecidableEq, Repr

/-- Mutable state of an `Fsm` object (`fsm.hpp` private fields).  The mutex and
condition variable are represented only through the `notifyAll` effects and the
wait-primitive model; `log_callback_` is always installed (a default is set in
the constructor), so `logMessage` always emits a `log` effect. -/
structure Engine where
  thread_safe : Bool
  running : Bool
  current_state : SystemState
  previous_state : SystemState
  state_change_callback : Option CbRun
  event_callbacks : List (SystemEvent × CbResult)
  has_original_trajectory : Bool
  original_trajectory_data : String
  execution_progress : Nat
deriving DecidableEq, Repr

/-- The engine produced by the constructor `Fsm::Fsm()` (the two trajectory
fields are never initialized nor read by the C++ code; they are given inert
defaults here). -/
def mkFsm : Engine :=
  { thread_safe := false
    running := false
    current_state := .IDLE
    previous_state := .IDLE
    state_change_callback := none
    event_callbacks := []
    has_original_trajectory := false
    original_trajectory_data := ""
    execution_progress := 0 }

/-- Result of `Fsm::triggerEvent` and its helpers: the boolean return value,
the engine state afterwards, and the trace of effects. -/
structure TriggerResult where
  ok : Bool
  engine : Engine
  effects : List Effect
deriving DecidableEq, Repr

/-- Mirrors `Fsm::onStateChanged`: invoke the state-change callback if
registered, catching and logging a thrown exception, then `cv_.notify_all()`. -/
def onStateChanged (cb : Option CbRun) (old_state new_state : SystemState) : List Effect :=
  match cb with
  | none => [Effect.notifyAll]
  | some CbRun.ok => [Effect.stateCb old_state new_state CbRun.ok, Effect.notifyAll]
  | some (CbRun.thrown m) =>
      [Effect.stateCb old_state new_state (CbRun.thrown m),
       Effect.log ("状态变化回调异常: " ++ m),
       Effect.notifyAll]

/-- Mirrors `Fsm::isValidTransition`. -/
def isValidTransition (fromS toS : SystemState) (event : SystemEvent) : Bool :=
  match lookupTable fromS event with
  | none => false
  | some t => t == toS

/-- Mirrors `Fsm::executeTransition`: re-check the table, commit the state
change, log it, and notify via `onStateChanged`. -/
def executeTransition (eng : Engine) (fromS toS : SystemState) (event : SystemEvent) :
    TriggerResult :=
  if !(isValidTransition fromS toS event) then
    { ok := false
      engine := eng
      effects := [Effect.log ("无效转换: " ++ stateToString fromS ++ " -> " ++ stateToString toS)] }
  else
    let eng2 : Engine := { eng with previous_state := eng.current_state, current_state := toS }
    { ok := true
      engine := eng2
      effects :=
        Effect.log ("状态转换: " ++ stateToString fromS ++ " -> " ++ stateToString toS)
          :: onStateChanged eng2.state_change_callback eng2.previous_state eng2.current_state }

/-- The lookup `event_callbacks_.find(event)` on the gating-callback registry. -/
def findEventCallback (eng : Engine) (event : SystemEvent) : Option CbResult :=
  (eng.event_callbacks.find? (fun p => p.1 == event)).map Prod.snd

/-- Mirrors `Fsm::triggerEventInternal`: outer table lookup, inner event lookup,
optional gating callback (a `false` return or a thrown exception aborts with no
state change), then `executeTransition`.  `data` is accepted and unused,
as in the C++ code. -/
def triggerEventInternal (eng : Engine) (event : SystemEvent) (data : String) : TriggerResult :=
  let _ := data
  match lookupState eng.current_state with
  | none =>
      { ok := false
        engine := eng
        effects := [Effect.log ("未找到状态 " ++ stateToString eng.current_state ++ " 的转换表")] }
  | some events =>
    match (events.find? (fun p => p.1 == event)).map Prod.snd with
    | none =>
        { ok := false
          engine := eng
          effects := [Effect.log ("状态 " ++ stateToString eng.current_state ++
                        " 不支持事件 " ++ eventToString event)] }
    | some target_state =>
      match findEventCallback eng event with
      | some (CbResult.ret true) =>
          let r := executeTransition eng eng.current_state target_state event
          { r with effects := Effect.eventCb event (CbResult.ret true) :: r.effects }
      | some (CbResult.ret false) =>
          { ok := false
            engine := eng
            effects := [Effect.eventCb event (CbResult.ret false),
                        Effect.log ("Event callbacks failed: " ++ eventToString event)] }
      | some (CbResult.thrown m) =>
          { ok := false
            engine := eng
            effects := [Effect.eventCb event (CbResult.thrown m),
                        Effect.log ("Event callbacks are abnormal: " ++ m)] }
      | none => executeTransition eng eng.current_state target_state event

/-- Mirrors `bool Fsm::triggerEvent(SystemEvent, const std::string&)`. -/
def triggerEvent (eng : Engine) (event : SystemEvent) (data : String) : TriggerResult :=
  triggerEventInternal eng event data

/-- Mirrors the one-argument overload `bool Fsm::triggerEvent(SystemEvent)`,
which forwards an empty `data` string. -/
def triggerEventNoData (eng : Engine) (event : SystemEvent) : TriggerResult :=
  triggerEvent eng event ""

/-- Mirrors `Fsm::canTransitionInternal`: pure two-step table lookup. -/
def canTransitionInternal (eng : Engine) (event : SystemEvent) : Bool :=
  match lookupState eng.current_state with
  | none => false
  | some events => (events.find? (fun p => p.1 == event)).isSome

/-- Mirrors `Fsm::canTransition` (a `const` member): besides the boolean it
returns the (unchanged) engine and the (empty) effect trace, making explicit
that the query mutates nothing and invokes no callback. -/
def canTransition (eng : Engine) (event : SystemEvent) : Bool × Engine × List Effect :=
  (canTransitionInternal eng event, eng, [])

/-- Mirrors `bool Fsm::initialize()`: state to IDLE, running, progress zeroed,
one log line, returns `true`. -/
def initializeEngine (eng : Engine) : Bool × Engine × List Effect :=
  (true,
   { eng with
      current_state := .IDLE
      previous_state := .IDLE
      running := true
      execution_progress := 0 },
   [Effect.log "状态机初始化"])

/-- Mirrors `void Fsm::start()`. -/
def start (eng : Engine) : Engine × List Effect :=
  ({ eng with running := true, current_state := .IDLE }, [Effect.log "启动状态机"])

/-- Mirrors `void Fsm::reset()`: force IDLE, record the prior state, then
`onStateChanged` (callback plus wake), even when already in IDLE. -/
def reset (eng : Engine) : Engine × List Effect :=
  let eng2 : Engine := { eng with previous_state := eng.current_state, current_state := .IDLE }
  (eng2,
   Effect.log "重置状态机"
     :: onStateChanged eng2.state_change_callback eng2.previous_state eng2.current_state)

/-- Mirrors `void Fsm::shutdown()`: clear `running_` and `cv_.notify_all()`. -/
def shutdown (eng : Engine) : Engine × List Effect :=
  ({ eng with running := false }, [Effect.log "关闭状态机", Effect.notifyAll])

/-- Mirrors `void Fsm::stop()`: raise `STOP_REQUEST` through `triggerEvent` and
discard the boolean result (the C++ member returns `void`). -/
def stop (eng : Engine) : Engine × List Effect :=
  let r := triggerEventNoData eng SystemEvent.STOP_REQUEST
  (r.engine, r.effects)

/-- Assignment `map[key] = value` on an association list: replace the existing
binding or append a new one (mirrors `unordered_map::operator[]`). -/
def insertAssoc (l : List (SystemEvent × CbResult)) (event : SystemEvent) (cb : CbResult) :
    List (SystemEvent × CbResult) :=
  match l with
  | [] => [(event, cb)]
  | (k, v) :: rest =>
      if k == event then (event, cb) :: rest else (k, v) :: insertAssoc rest event cb

/-- Mirrors `Fsm::setStateChangeCallback`. -/
def setStateChangeCallback (eng : Engine) (cb : CbRun) : Engine × List Effect :=
  ({ eng with state_change_callback := some cb },
   [Effect.log "State change callback registered"])

/-- Mirrors `Fsm::setEventCallback`. -/
def setEventCallback (eng : Engine) (event : SystemEvent) (cb : CbResult) :
    Engine × List Effect :=
  ({ eng with event_callbacks := insertAssoc eng.event_callbacks event cb },
   [Effect.log ("Register the event callback: " ++ eventToString event)])

/-- Mirrors `Fsm::enableThreadSafety`. -/
def enableThreadSafety (eng : Engine) (enable : Bool) : Engine :=
  { eng with thread_safe := enable }

/-- Mirrors `Fsm::getCurrentState`. -/
def getCurrentState (eng : Engine) : SystemState :=
  eng.current_state

/-- Mirrors `Fsm::isInState`. -/
def isInState (eng : Engine) (state : SystemState) : Bool :=
  getCurrentState eng == state

/-- Mirrors `bool Fsm::waitForState(SystemState, std::chrono::milliseconds)`.
`timeout` is the millisecond count; `wakeState` and `wakeRunning` are the
values of `current_state_` and `running_` at the moment the wait returns
(the concurrent environment abstracted to what the predicate reads then).
With `timeout > 0` the C++ code returns the value of
`cv_.wait_for(lock, timeout, pred)`, which is the predicate
`current_state_ == target_state || !running_` evaluated at return time;
with `timeout == 0` it waits until the predicate holds (so a caller of that
branch has `wakeState = target_state` or `wakeRunning = false`) and then
returns `current_state_ == target_state`. -/
def waitForState (eng : Engine) (target_state : SystemState) (timeout : Nat)
    (wakeState : SystemState) (wakeRunning : Bool) : Bool × List Effect :=
  if !eng.thread_safe then
    (false, [Effect.log "The wait state feature requires thread safety to be enabled"])
  else if eng.current_state == target_state then
    (true, [])
  else if timeout > 0 then
    (wakeState == target_state || !wakeRunning, [])
  else
    (wakeState == target_state, [])

/-- A public operation of the engine, for reachability statements. -/
inductive Op
  | opInit
  | opStart
  | opStop
  | opReset
  | opShutdown
  | opTrigger (event : SystemEvent) (data : String)
  | opSetStateChangeCallback (cb : CbRun)
  | opSetEventCallback (event : SystemEvent) (cb : CbResult)
  | opEnableThreadSafety (enable : Bool)

/-- State reached after one public operation. -/
def applyOp (eng : Engine) : Op → Engine
  | .opInit => (initializeEngine eng).2.1
  | .opStart => (start eng).1
  | .opStop => (stop eng).1
  | .opReset => (reset eng).1
  | .opShutdown => (shutdown eng).1
  | .opTrigger event data => (triggerEvent eng event data).engine
  | .opSetStateChangeCallback cb => (setStateChangeCallback eng cb).1
  | .opSetEventCallback event cb => (setEventCallback eng event cb).1
  | .opEnableThreadSafety enable => enableThreadSafety eng enable

/-- State reached after a sequence of public operations. -/
def run (eng : Engine) (ops : List Op) : Engine :=
  ops.foldl applyOp eng

/-- The closed set of the six declared state variants. -/
def allStates : List SystemState :=
  [.IDLE, .MOVEIT_STARTING, .PLANNING, .EXECUTING, .OBSTACLE_DETECTED, .ERROR]

/-- An effect is a state-change notification: a state-change-callback
invocation or a condition-variable broadcast. -/
def isNotifyEffect : Effect → Bool
  | Effect.stateCb _ _ _ => true
  | Effect.notifyAll => true
  | _ => false

/-- An effect that invokes the state-change callback. -/
def isStateCbEffect : Effect → Bool
  | Effect.stateCb _ _ _ => true
  | _ => false

/-- An effect that broadcasts on the condition variable. -/
def isNotifyAllEffect : Effect → Bool
  | Effect.notifyAll => true
  | _ => false

/-- A synchronized, running engine sitting in IDLE, used to evaluate the wait
primitive at a concrete input. -/
def engWait : Engine :=
  { mkFsm with thread_safe := true, running := true }

/-- C1: evaluation of `waitForState` at the failing input.  In synchronized
mode, starting from IDLE with target PLANNING and a positive timeout of 100 ms,
a wake that finds `running = false` and the state still IDLE makes
`waitForState` return `true` (success): the timed branch returns the value of
`cv_.wait_for`, which is the predicate `state == target || !running`, true
under shutdown.  The indefinite branch (`timeout = 0`) of the very same
function returns `false` (failure) on that wake, as the claim demands. -/
theorem c1_shutdown_wake_timed_wait_returns_true :
    (waitForState engWait SystemState.PLANNING 100 SystemState.IDLE false).1 = true ∧
      (waitForState engWait SystemState.PLANNING 0 SystemState.IDLE false).1 = false ∧
      engWait.thread_safe = true ∧
      engWait.current_state ≠ SystemState.PLANNING := by
  decide

/-- C2: for any engine whose (current state, event) pair is absent from the
transition table, `triggerEventInternal` returns failure and leaves the engine
(in particular `current_state` and `previous_state`) unchanged; moreover
`OBSTACLE_CLEARED` has no table entry in any state. -/
theorem c2_unsupported_event_fails (eng : Engine) (event : SystemEvent) (data : String)
    (h : lookupTable eng.current_state event = none) :
    (triggerEventInternal eng event data).ok = false ∧
      (triggerEventInternal eng event data).engine = eng ∧
      (∀ s : SystemState, lookupTable s SystemEvent.OBSTACLE_CLEARED = none) := by
  refine ⟨?_, ?_, by decide⟩ <;>
  · cases h1 : lookupState eng.current_state with
    | none => simp [triggerEventInternal, h1]
    | some events =>
        simp only [lookupTable, h1] at h
        simp [triggerEventInternal, h1, h]

/-- C2 witness: the fresh engine in IDLE rejects `OBSTACLE_CLEARED`. -/
theorem c2_unsupported_event_fails_witness :
    (triggerEventInternal mkFsm SystemEvent.OBSTACLE_CLEARED "").ok = false ∧
      (triggerEventInternal mkFsm SystemEvent.OBSTACLE_CLEARED "").engine = mkFsm ∧
      (∀ s : SystemState, lookupTable s SystemEvent.OBSTACLE_CLEARED = none) :=
  c2_unsupported_event_fails mkFsm SystemEvent.OBSTACLE_CLEARED "" (by decide)

/-- C4: `canTransition` returns true exactly when (current state, event) is a
table key, and it returns the engine unchanged with an empty effect trace (no
mutation, no callback invocation). -/
theorem c4_canTransition_pure (eng : Engine) (event : SystemEvent) :
    (canTransition eng event).1 = (lookupTable eng.current_state event).isSome ∧
      (canTransition eng event).2.1 = eng ∧
      (canTransition eng event).2.2 = [] := by
  refine ⟨?_, rfl, rfl⟩
  cases h1 : lookupState eng.current_state with
  | none => simp [canTransition, canTransitionInternal, lookupTable, h1]
  | some events =>
      cases h2 : events.find? (fun p => p.1 == event) with
      | none => simp [canTransition, canTransitionInternal, lookupTable, h1, h2]
      | some hit => simp [canTransition, canTransitionInternal, lookupTable, h1, h2]

/-- C7: `reset` always yields `current_state = IDLE`, records the prior state
into `previous_state`, and fires exactly one notification: one condition
variable broadcast, plus exactly one state-change-callback invocation when a
callback is registered — including when the prior state already was IDLE. -/
theorem c7_reset_forces_idle_and_notifies (eng : Engine) :
    (reset eng).1.current_state = SystemState.IDLE ∧
      (reset eng).1.previous_state = eng.current_state ∧
      (reset eng).2.countP isNotifyAllEffect = 1 ∧
      (reset eng).2.countP isStateCbEffect =
        (if eng.state_change_callback.isSome then 1 else 0) := by
  cases h : eng.state_change_callback with
  | none =>
      simp [reset, onStateChanged, h, List.countP_cons, isNotifyAllEffect, isStateCbEffect]
  | some cb =>
      cases cb <;>
        simp [reset, onStateChanged, h, List.countP_cons, isNotifyAllEffect, isStateCbEffect]

/-- C9: `stop()` on an engine in IDLE leaves the engine entirely unchanged;
the only observable output is the "event not supported" log line, and the
underlying `triggerEvent(STOP_REQUEST)` returns failure while `stop` itself
returns no status (its Lean model returns only the engine and the trace,
mirroring the `void` return type). -/
theorem c9_stop_in_idle_silent_failure (eng : Engine)
    (h : eng.current_state = SystemState.IDLE) :
    (stop eng).1 = eng ∧
      (stop eng).2 = [Effect.log ("状态 " ++ stateToString SystemState.IDLE ++
        " 不支持事件 " ++ eventToString SystemEvent.STOP_REQUEST)] ∧
      (triggerEventNoData eng SystemEvent.STOP_REQUEST).ok = false := by
  have hl : lookupState SystemState.IDLE =
      some [(SystemEvent.START_MOVEIT, SystemState.MOVEIT_STARTING),
            (SystemEvent.RESET_REQUEST, SystemState.IDLE),
            (SystemEvent.ERROR_OCCURRED, SystemState.ERROR)] := rfl
  have hf : Option.map Prod.snd
      (List.find? (fun p => p.1 == SystemEvent.STOP_REQUEST)
        [(SystemEvent.START_MOVEIT, SystemState.MOVEIT_STARTING),
         (SystemEvent.RESET_REQUEST, SystemState.IDLE),
         (SystemEvent.ERROR_OCCURRED, SystemState.ERROR)]) = none := rfl
  refine ⟨?_, ?_, ?_⟩ <;>
    simp [stop, triggerEventNoData, triggerEvent, triggerEventInternal, h, hl, hf]

/-- C9 witness: the freshly constructed engine starts in IDLE. -/
theorem c9_stop_in_idle_silent_failure_witness :
    (stop mkFsm).1 = mkFsm ∧
      (stop mkFsm).2 = [Effect.log ("状态 " ++ stateToString SystemState.IDLE ++
        " 不支持事件 " ++ eventToString SystemEvent.STOP_REQUEST)] ∧
      (triggerEventNoData mkFsm SystemEvent.STOP_REQUEST).ok = false :=
  c9_stop_in_idle_silent_failure mkFsm rfl

/-- C3: for a tabulated (state, event) pair, with no gating callback for the
event or one returning true, and a state-change callback registered,
`triggerEventInternal` returns success, sets `current_state` to exactly the
tabulated target, sets `previous_state` to the prior state, and invokes the
state-change callback exactly once, with arguments (old state, new state). -/
theorem c3_tabulated_transition_commits (eng : Engine) (event : SystemEvent)
    (target : SystemState) (cb : CbRun) (data : String)
    (htab : lookupTable eng.current_state event = some target)
    (hgate : findEventCallback eng event = none ∨
      findEventCallback eng event = some (CbResult.ret true))
    (hcb : eng.state_change_callback = some cb) :
    (triggerEventInternal eng event data).ok = true ∧
      (triggerEventInternal eng event data).engine.current_state = target ∧
      (triggerEventInternal eng event data).engine.previous_state = eng.current_state ∧
      (triggerEventInternal eng event data).effects.countP isStateCbEffect = 1 ∧
      Effect.stateCb eng.current_state target cb ∈
        (triggerEventInternal eng event data).effects := by
  cases h1 : lookupState eng.current_state with
  | none => simp [lookupTable, h1] at htab
  | some events =>
      simp only [lookupTable, h1] at htab
      have hvalid : isValidTransition eng.current_state target event = true := by
        simp [isValidTransition, lookupTable, h1, htab]
      rcases hgate with hg | hg <;>
        cases cb <;>
          simp [triggerEventInternal, h1, htab, hg, executeTransition, hvalid, hcb,
            onStateChanged, List.countP_cons, isStateCbEffect]

/-- A fresh engine with a normally returning state-change callback installed. -/
def engGateOk : Engine :=
  { mkFsm with state_change_callback := some CbRun.ok }

/-- C3 witness: (IDLE, START_MOVEIT) commits to MOVEIT_STARTING with one
callback invocation. -/
theorem c3_tabulated_transition_commits_witness :
    (triggerEventInternal engGateOk SystemEvent.START_MOVEIT "").ok = true ∧
      (triggerEventInternal engGateOk SystemEvent.START_MOVEIT "").engine.current_state =
        SystemState.MOVEIT_STARTING ∧
      (triggerEventInternal engGateOk SystemEvent.START_MOVEIT "").engine.previous_state =
        engGateOk.current_state ∧
      (triggerEventInternal engGateOk SystemEvent.START_MOVEIT "").effects.countP
        isStateCbEffect = 1 ∧
      Effect.stateCb engGateOk.current_state SystemState.MOVEIT_STARTING CbRun.ok ∈
        (triggerEventInternal engGateOk SystemEvent.START_MOVEIT "").effects :=
  c3_tabulated_transition_commits engGateOk SystemEvent.START_MOVEIT
    SystemState.MOVEIT_STARTING CbRun.ok "" (by decide) (Or.inl rfl) rfl

/-- C5: for a tabulated (state, event) pair whose gating callback returns false
or throws, `triggerEventInternal` returns failure, the engine is entirely
unchanged, and no notification (state-change callback or wake) is emitted; the
Lean function is total, mirroring that the thrown exception is caught inside
`triggerEvent` and never propagates. -/
theorem c5_gating_callback_veto_or_fault (eng : Engine) (event : SystemEvent)
    (target : SystemState) (m : String) (data : String)
    (htab : lookupTable eng.current_state event = some target)
    (hgate : findEventCallback eng event = some (CbResult.ret false) ∨
      findEventCallback eng event = some (CbResult.thrown m)) :
    (triggerEventInternal eng event data).ok = false ∧
      (triggerEventInternal eng event data).engine = eng ∧
      (triggerEventInternal eng event data).effects.countP isNotifyEffect = 0 := by
  cases h1 : lookupState eng.current_state with
  | none => simp [lookupTable, h1] at htab
  | some events =>
      simp only [lookupTable, h1] at htab
      rcases hgate with hg | hg <;>
        simp [triggerEventInternal, h1, htab, hg, List.countP_cons, isNotifyEffect]

/-- A fresh engine whose START_MOVEIT gating callback throws. -/
def engGateThrow : Engine :=
  { mkFsm with event_callbacks := [(SystemEvent.START_MOVEIT, CbResult.thrown "boom")] }

/-- C5 witness: a throwing gating callback aborts (IDLE, START_MOVEIT) with no
state change. -/
theorem c5_gating_callback_veto_or_fault_witness :
    (triggerEventInternal engGateThrow SystemEvent.START_MOVEIT "").ok = false ∧
      (triggerEventInternal engGateThrow SystemEvent.START_MOVEIT "").engine = engGateThrow ∧
      (triggerEventInternal engGateThrow SystemEvent.START_MOVEIT "").effects.countP
        isNotifyEffect = 0 :=
  c5_gating_callback_veto_or_fault engGateThrow SystemEvent.START_MOVEIT
    SystemState.MOVEIT_STARTING "boom" "" (by decide) (Or.inr rfl)

/-- C6: when the state-change callback throws during a committed transition,
the fault is caught and logged: the call still returns success, `current_state`
remains the tabulated target and `previous_state` the old state — no
rollback. -/
theorem c6_state_change_callback_fault_no_rollback (eng : Engine) (event : SystemEvent)
    (target : SystemState) (m : String) (data : String)
    (htab : lookupTable eng.current_state event = some target)
    (hgate : findEventCallback eng event = none ∨
      findEventCallback eng event = some (CbResult.ret true))
    (hcb : eng.state_change_callback = some (CbRun.thrown m)) :
    (triggerEventInternal eng event data).ok = true ∧
      (triggerEventInternal eng event data).engine.current_state = target ∧
      (triggerEventInternal eng event data).engine.previous_state = eng.current_state ∧
      Effect.log ("状态变化回调异常: " ++ m) ∈ (triggerEventInternal eng event data).effects := by
  cases h1 : lookupState eng.current_state with
  | none => simp [lookupTable, h1] at htab
  | some events =>
      simp only [lookupTable, h1] at htab
      have hvalid : isValidTransition eng.current_state target event = true := by
        simp [isValidTransition, lookupTable, h1, htab]
      rcases hgate with hg | hg <;>
        simp [triggerEventInternal, h1, htab, hg, executeTransition, hvalid, hcb,
          onStateChanged]

/-- A fresh engine whose state-change callback throws. -/
def engCbThrow : Engine :=
  { mkFsm with state_change_callback := some (CbRun.thrown "cb boom") }

/-- C6 witness: (IDLE, START_MOVEIT) commits despite the throwing state-change
callback. -/
theorem c6_state_change_callback_fault_no_rollback_witness :
    (triggerEventInternal engCbThrow SystemEvent.START_MOVEIT "").ok = true ∧
      (triggerEventInternal engCbThrow SystemEvent.START_MOVEIT "").engine.current_state =
        SystemState.MOVEIT_STARTING ∧
      (triggerEventInternal engCbThrow SystemEvent.START_MOVEIT "").engine.previous_state =
        engCbThrow.current_state ∧
      Effect.log ("状态变化回调异常: " ++ "cb boom") ∈
        (triggerEventInternal engCbThrow SystemEvent.START_MOVEIT "").effects :=
  c6_state_change_callback_fault_no_rollback engCbThrow SystemEvent.START_MOVEIT
    SystemState.MOVEIT_STARTING "cb boom" "" (by decide) (Or.inl rfl) rfl

/-- C8: after any sequence of public operations from the constructed engine,
`current_state` lies in the closed six-variant set, and any change of
`current_state` made by `triggerEvent` is exactly a verbatim table entry
(from, event) -> to — there is no wildcard or default edge. -/
theorem c8_states_closed_and_transitions_verbatim :
    (∀ ops : List Op, (run mkFsm ops).current_state ∈ allStates) ∧
      (∀ (eng : Engine) (event : SystemEvent) (data : String),
        (triggerEventInternal eng event data).engine.current_state = eng.current_state ∨
          lookupTable eng.current_state event =
            some ((triggerEventInternal eng event data).engine.current_state)) := by
  constructor
  · intro ops
    cases (run mkFsm ops).current_state <;> simp [allStates]
  · intro eng event data
    cases h1 : lookupState eng.current_state with
    | none => exact Or.inl (by simp [triggerEventInternal, h1])
    | some events =>
      cases h2 : Option.map Prod.snd (List.find? (fun p => p.1 == event) events) with
      | none => exact Or.inl (by simp [triggerEventInternal, h1, h2])
      | some target =>
        have htab : lookupTable eng.current_state event = some target := by
          simp [lookupTable, h1, h2]
        have hvalid : isValidTransition eng.current_state target event = true := by
          simp [isValidTransition, htab]
        cases h3 : findEventCallback eng event with
        | none =>
            refine Or.inr ?_
            simp [triggerEventInternal, h1, h2, h3, executeTransition, hvalid, htab]
        | some cb =>
            cases cb with
            | ret b =>
                cases b with
                | true =>
                    refine Or.inr ?_
                    simp [triggerEventInternal, h1, h2, h3, executeTransition, hvalid, htab]
                | false => exact Or.inl (by simp [triggerEventInternal, h1, h2, h3])
            | thrown m => exact Or.inl (by simp [triggerEventInternal, h1, h2, h3])

/-- Helper: `executeTransition` emits a notification exactly when it commits. -/
theorem executeTransition_any_notify (eng : Engine) (fromS toS : SystemState)
    (event : SystemEvent) :
    (executeTransition eng fromS toS event).effects.any isNotifyEffect =
      (executeTransition eng fromS toS event).ok := by
  by_cases hv : isValidTransition fromS toS event
  · cases h : eng.state_change_callback with
    | none => simp [executeTransition, hv, onStateChanged, h, isNotifyEffect]
    | some cb => cases cb <;> simp [executeTransition, hv, onStateChanged, h, isNotifyEffect]
  · simp [executeTransition, hv, isNotifyEffect]

/-- C10: `start` and `initialize` emit no notification (no state-change
callback invocation, no condition-variable wake) even though they may move
`current_state` to IDLE; `reset` and `shutdown` always emit one; and
`triggerEvent` emits a notification exactly when it committed a transition
(returned success). -/
theorem c10_notifications_only_from_commits_reset_shutdown :
    (∀ eng : Engine,
        (start eng).2.countP isNotifyEffect = 0 ∧
          (initializeEngine eng).2.2.countP isNotifyEffect = 0) ∧
      (∀ eng : Engine,
        0 < (reset eng).2.countP isNotifyEffect ∧
          0 < (shutdown eng).2.countP isNotifyEffect) ∧
      (∀ (eng : Engine) (event : SystemEvent) (data : String),
        (triggerEventInternal eng event data).effects.any isNotifyEffect =
          (triggerEventInternal eng event data).ok) := by
  refine ⟨fun eng => ⟨rfl, rfl⟩, ?_, ?_⟩
  · intro eng
    constructor
    · cases h : eng.state_change_callback with
      | none => simp [reset, onStateChanged, h, List.countP_cons, isNotifyEffect]
      | some cb => cases cb <;> simp [reset, onStateChanged, h, List.countP_cons, isNotifyEffect]
    · simp [shutdown, List.countP_cons, isNotifyEffect]
  · intro eng event data
    cases h1 : lookupState eng.current_state with
    | none => simp [triggerEventInternal, h1, isNotifyEffect]
    | some events =>
      cases h2 : Option.map Prod.snd (List.find? (fun p => p.1 == event) events) with
      | none => simp [triggerEventInternal, h1, h2, isNotifyEffect]
      | some target =>
        cases h3 : findEventCallback eng event with
        | none =>
            simpa [triggerEventInternal, h1, h2, h3] using
              executeTransition_any_notify eng eng.current_state target event
        | some cb =>
            cases cb with
            | ret b =>
                cases b with
                | true =>
                    simpa [triggerEventInternal, h1, h2, h3, isNotifyEffect] using
                      executeTransition_any_notify eng eng.current_state target event
                | false => simp [triggerEventInternal, h1, h2, h3, isNotifyEffect]
            | thrown m => simp [triggerEventInternal, h1, h2, h3, isNotifyEffect]

end Fsm
